import Mathlib

/-!
Verification development for the pyxparser ANAREDE parser.

Shallow embedding of the core of `src/pyxparser`:
  * the column-positional field extractor (`parser/anarede.py`, `_extract_field_value`)
  * the schema-driven record builders (`parse_dbar_record` and friends)
  * the DBSH shunt-bank block scanner (`parse_dbsh_section`)
  * the top-level section scanner (`parse_file`)
  * the two integration passes (`_integrate_dbsh_into_dbar`, `_integrate_dshl_into_dbar`)
  * the `.dat` case serializer (`cli_functions.py`, `_format_dat_file`, DLIN block)

Modelling conventions:
  * Python floats are modelled as rationals (ℚ); the claims under study concern
    which arithmetic is performed, not IEEE rounding.
  * Python dict values of mixed type are modelled by the inductive `PyVal`
    (string / int / float), and `dict.get` returning `None` by `Option`.
  * Python truthiness of an optional int (`if Num_k:`) is `some n` with `n ≠ 0`.
  * Fallible Python code (statements that can raise) is modelled with
    `Except String`; exceptions that the source catches locally are modelled
    with `Option` at the point where the source catches them.
  * File reading is modelled by a `List String` of lines (already stripped of
    the trailing newline, as the source does with `rstrip`).
-/

set_option allowUnsafeReducibility true

/- The Batteries rational-number operations are marked irreducible, which
blocks `decide` on concrete rational computations; restore the ordinary
reducibility so that closed evaluations of the embedded functions reduce.
(This changes no definition and no axiom: the kernel ignores reducibility
attributes.) -/
attribute [semireducible] Rat.add Rat.mul Rat.div Rat.inv Rat.sub Rat.neg

namespace Pyx

/-- A Python value as stored in the parsed record dictionaries:
either a string, an int, or a float (modelled as ℚ). -/
inductive PyVal where
  | vstr (s : String)
  | vint (n : Int)
  | vfloat (q : ℚ)
  deriving DecidableEq

/-- The declared type of a schema field, derived in the source from the
Python type of the field's default (`isinstance(default, int)` etc.). -/
inductive DataType where
  | tstr
  | tint
  | tfloat
  deriving DecidableEq

/-- `dataTypeOf d` mirrors the `isinstance` chain in `parse_dbar_record`
(and its clones): an int default selects `int`, a float default selects
`float`, anything else selects `str`. -/
def dataTypeOf : PyVal → DataType
  | .vint _ => .tint
  | .vfloat _ => .tfloat
  | .vstr _ => .tstr

/-- Python slicing `s[i:j]` for `0 ≤ i, j`: characters `i` up to `j-1`,
clamped to the string length. -/
def pySlice (s : String) (i j : Nat) : String :=
  ((s.toList.drop i).take (j - i)).asString

/-- Python slicing `s[i:]` for `0 ≤ i`. -/
def pyDrop (s : String) (i : Nat) : String :=
  (s.toList.drop i).asString

/-- Python `s.strip()`: remove leading and trailing whitespace.
(Defined over the character list so that it reduces inside the kernel;
the core `String.trim` is equivalent but defined by well-founded
recursion on byte positions.) -/
def pyStrip (s : String) : String :=
  (((s.toList.dropWhile Char.isWhitespace).reverse.dropWhile
      Char.isWhitespace).reverse).asString

/-- Python `s.startswith(pre)`, over character lists. -/
def pyStartsWith (s pre : String) : Bool :=
  pre.toList.isPrefixOf s.toList

/-- Value of a non-empty all-digit character list; `none` otherwise. -/
def digitsToNat : List Char → Option Nat
  | [] => none
  | l => if l.all Char.isDigit then
           some (l.foldl (fun a c => a * 10 + (c.toNat - 48)) 0)
         else none

/-- An optional sign followed by digits, as accepted by Python `int()`
after whitespace stripping.  (Underscore digit separators accepted by
CPython are not modelled; no claim depends on them.) -/
def signedDigits : List Char → Option Int
  | '+' :: r => (digitsToNat r).map Int.ofNat
  | '-' :: r => (digitsToNat r).map (fun n => -(n : Int))
  | l => (digitsToNat l).map Int.ofNat

/-- Python `int(s)`: strips surrounding whitespace, then an optional sign
and digits; any other shape raises `ValueError`, modelled as `none`. -/
def pyIntParse (s : String) : Option Int :=
  signedDigits (pyStrip s).toList

/-- Mantissa of a Python float literal: digits, optionally with a decimal
point; at least one digit in total. -/
def mantissaCore (l : List Char) : Option ℚ :=
  let ip := l.takeWhile Char.isDigit
  let rest := l.drop ip.length
  match rest with
  | [] => if ip.isEmpty then none
          else some ((ip.foldl (fun a c => a * 10 + (c.toNat - 48)) 0 : Nat) : ℚ)
  | '.' :: frac =>
      if frac.all Char.isDigit ∧ (ip ≠ [] ∨ frac ≠ []) then
        some (((ip.foldl (fun a c => a * 10 + (c.toNat - 48)) 0 : Nat) : ℚ)
              + ((frac.foldl (fun a c => a * 10 + (c.toNat - 48)) 0 : Nat) : ℚ)
                / (10 : ℚ) ^ frac.length)
      else none
  | _ => none

/-- Python `float(s)`: strips whitespace, optional sign, mantissa and an
optional `e`/`E` exponent.  Failure (`ValueError`) is `none`.
(`inf`/`nan` literals and underscore separators are not modelled; no claim
depends on them.) -/
def pyFloatParse (s : String) : Option ℚ :=
  let t := (pyStrip s).toList
  let signed : ℚ × List Char :=
    match t with
    | '+' :: r => (1, r)
    | '-' :: r => (-1, r)
    | _ => (1, t)
  let mpart := signed.2.takeWhile (fun c => c ≠ 'e' ∧ c ≠ 'E')
  let rest := signed.2.drop mpart.length
  match mantissaCore mpart with
  | none => none
  | some m =>
    match rest with
    | [] => some (signed.1 * m)
    | _ :: expl =>
      match signedDigits expl with
      | some e => some (signed.1 * (m * (10 : ℚ) ^ (e : ℤ)))
      | none => none

/-- Python `s.isspace()`: non-empty and all whitespace. -/
def pyIsSpace (s : String) : Bool :=
  s ≠ "" && s.toList.all Char.isWhitespace

/-- First whitespace-separated token of `s` (Python `s.split()[0]`;
only called by the source when `s.strip()` is non-empty). -/
def firstToken (s : String) : String :=
  ((s.toList.dropWhile Char.isWhitespace).takeWhile
    (fun c => ¬ c.isWhitespace)).asString

/-! ## Field extraction (`_extract_field_value`, anarede.py lines 764-801) -/

/-- The raw (clamped, trimmed) substring selected by a 1-based inclusive
column range, exactly as computed at the top of `_extract_field_value`. -/
def rawFieldValue (line : String) (start colEnd : Nat) : String :=
  let startIdx := start - 1
  let endIdx := colEnd
  if endIdx ≤ line.length then pyStrip (pySlice line startIdx endIdx)
  else pyStrip (pyDrop line startIdx)

/-- `_extract_field_value(line, start, end, data_type)`.  Returns
`vstr ""` on an empty selection or a failed int/float conversion (the
source returns the empty string in those cases). -/
def extract_field_value (line : String) (start colEnd : Nat) (dt : DataType) : PyVal :=
  let raw := rawFieldValue line start colEnd
  if raw = "" then .vstr ""
  else
    match dt with
    | .tstr => .vstr raw
    | .tint =>
      match pyIntParse raw with
      | some n => .vint n
      | none => .vstr ""
    | .tfloat =>
      match pyFloatParse raw with
      | some q => .vfloat q
      | none => .vstr ""

/-- One schema field: name, resolved 1-based inclusive column range, and
the JSON default value. -/
structure FieldSpec where
  name : String
  start : Nat
  colEnd : Nat
  default : PyVal
  deriving DecidableEq

/-- The per-field body of `parse_dbar_record` (and its clones):
extract with the type derived from the default, then substitute the
(unconverted) default when the extracted value is the empty string
(`value if value != "" else default`; a non-string value never equals
`""` in Python). -/
def extractWithDefault (line : String) (start colEnd : Nat) (d : PyVal) : PyVal :=
  let v := extract_field_value line start colEnd (dataTypeOf d)
  if v = .vstr "" then d else v

/-- Whether the raw substring parses as the declared type (`str` always
does: the source returns it as-is). -/
def parsesAs (dt : DataType) (s : String) : Bool :=
  match dt with
  | .tstr => true
  | .tint => (pyIntParse s).isSome
  | .tfloat => (pyFloatParse s).isSome

/-- A parsed record: the ordered field-name/value pairs of the Python dict. -/
abbrev RecordDict := List (String × PyVal)

/-- The shared body of `parse_dbar_record` / `parse_dlin_record` /
`parse_dger_record` / `parse_dcsc_record` / `parse_dcer_record`: raise
`ValueError` when the line is shorter than the section minimum, otherwise
build the record field by field.  (The per-field `try/except` in the
source is unreachable because `_extract_field_value` is total.) -/
def parse_record (fields : List FieldSpec) (minLen : Nat) (line : String) :
    Except String RecordDict :=
  if line.length < minLen then .error "line too short"
  else .ok (fields.map (fun f =>
    (f.name, extractWithDefault line f.start f.colEnd f.default)))

/-! ## Schema loading (`_load_field_mappings`, anarede.py lines 18-29) -/

/-- The schema: record kind ↦ field list (the two-level
`mappings[kind]["fields"]` JSON shape collapsed to one level). -/
abbrev Mappings := List (String × List FieldSpec)

/-- `self.field_mappings.get(kind, {}).get("fields", {})`: absent kinds
yield an empty field list. -/
def fieldsFor (m : Mappings) (kind : String) : List FieldSpec :=
  match m.lookup kind with
  | some fs => fs
  | none => []

/-- The fallback mapping returned when the schema file is missing:
`{"DBAR": {"fields": {}}, "DLIN": {"fields": {}}}`. -/
def emptyMappings : Mappings := [("DBAR", []), ("DLIN", [])]

/-- What `json.load` can do with the schema file's content: produce a
mapping, or raise `JSONDecodeError` on corrupt data. -/
inductive JsonContent where
  | valid (m : Mappings)
  | invalid
  deriving DecidableEq

/-- The state of the schema configuration file. -/
inductive FileState where
  | missing
  | present (c : JsonContent)
  deriving DecidableEq

/-- `_load_field_mappings`: only `FileNotFoundError` is caught (yielding
the empty fallback mapping); a decode error on a present-but-corrupt file
propagates. -/
def load_field_mappings : FileState → Except String Mappings
  | .missing => .ok emptyMappings
  | .present (.valid m) => .ok m
  | .present .invalid => .error "JSONDecodeError"

/-! ## DSHL record parsing (`parse_dshl_record`, anarede.py lines 532-580) -/

/-- A parsed DSHL (AC-circuit shunt device) record. -/
structure DshlRecord where
  from_bus : Int
  operation : String
  to_bus : Int
  circuit : Int
  shunt_from : ℚ
  shunt_to : ℚ
  state_from : String
  state_to : String
  deriving DecidableEq

/-- Lift an `Option` (a fallible Python conversion) into `Except`,
raising `ValueError` on `none`. -/
def optE (o : Option α) : Except String α :=
  match o with
  | some a => .ok a
  | none => .error "ValueError"

/-- `int(s) if s else d` where `s` is already stripped: the default on an
empty string, a raisable int conversion otherwise. -/
def intOrDefault (s : String) (d : Int) : Except String Int :=
  if s = "" then .ok d else optE (pyIntParse s)

/-- `float(s) if s and not s.isspace() else d` where `s` is already
stripped. -/
def floatOrDefault (s : String) (d : ℚ) : Except String ℚ :=
  if s ≠ "" ∧ pyIsSpace s = false then optE (pyFloatParse s) else .ok d

/-- `s if s and not s.isspace() else d` where `s` is already stripped. -/
def strOrDefault (s : String) (d : String) : String :=
  if s ≠ "" ∧ pyIsSpace s = false then s else d

/-- `parse_dshl_record(line)`: positional extraction with hard-coded
columns; int/float conversions of non-empty garbage raise (there is no
`try` in this function, so errors propagate to the scanner). -/
def parse_dshl_record (line : String) : Except String DshlRecord := do
  let fb ← intOrDefault (pyStrip (pySlice line 0 5)) 0
  let op := if pyStrip (pySlice line 6 7) ≠ "" then pyStrip (pySlice line 6 7) else "A"
  let tb ← intOrDefault (pyStrip (pySlice line 9 14)) 0
  let circ ← intOrDefault (pyStrip (pySlice line 14 16)) 1
  let shf ← floatOrDefault (pyStrip (pySlice line 17 23)) 0
  let sht ← floatOrDefault (pyStrip (pySlice line 23 29)) 0
  let stf := strOrDefault (pyStrip (pySlice line 30 32)) "L"
  let stt := strOrDefault (pyStrip (pySlice line 33 35)) "L"
  return ⟨fb, op, tb, circ, shf, sht, stf, stt⟩

/-! ## DBSH block parsing (`parse_dbsh_section`, anarede.py lines 410-530) -/

/-- One shunt bank of a DBSH record. -/
structure DbshBank where
  group_id : Int
  state : String
  units_in_operation : Int
  unit_reactive_power : ℚ
  deriving DecidableEq

/-- A parsed DBSH (shunt bank) record. -/
structure DbshRecord where
  from_bus : Int
  to_bus : Option Int
  control_mode : String
  initial_reactive_injection : ℚ
  terminal_bus : Int
  total_shunt : ℚ
  banks : List DbshBank
  deriving DecidableEq

/-- One bank data line, wrapped in the source's
`except (ValueError, IndexError)` (a failed conversion skips the bank). -/
def parseBankLine (l : String) : Option DbshBank := do
  let g ← if pyStrip (pySlice l 0 2) ≠ "" then pyIntParse (pySlice l 0 2) else some 1
  let st := if pyStrip (pySlice l 6 7) ≠ "" then pyStrip (pySlice l 6 7) else "L"
  let u ← if pyStrip (pySlice l 12 15) ≠ "" then pyIntParse (pySlice l 12 15) else some 1
  let pstr := if pyStrip (pyDrop l 16) ≠ "" then firstToken (pyDrop l 16) else "0"
  let p ← if pstr ≠ "" ∧ pyIsSpace pstr = false then pyFloatParse pstr else some 0
  return ⟨g, st, u, p⟩

/-- The body of one bank-loop iteration
(`if line.strip() and not line.startswith("(")`): parse the bank line,
append it, and add `units_in_operation × unit_reactive_power` to the
running total when its state is `"L"`; a failed parse (caught
`ValueError`/`IndexError`) leaves both unchanged. -/
def bankStep (l : String) (banks : List DbshBank) (total : ℚ) :
    List DbshBank × ℚ :=
  if pyStrip l ≠ "" ∧ ¬ pyStartsWith l "(" then
    match parseBankLine l with
    | some b =>
      (banks ++ [b],
       if b.state = "L" then
         total + (b.units_in_operation : ℚ) * b.unit_reactive_power
       else total)
    | none => (banks, total)
  else (banks, total)

/-- The bank-accumulation loop (`while not line.startswith("FBAN")`).
Returns the banks, the total, and the unread rest.  At end of input the
source would loop forever on empty `readline()` results; the model stops
and returns what was accumulated. -/
def bankLoop : Nat → String → List String → List DbshBank → ℚ →
    (List DbshBank × ℚ × List String)
  | 0, _, rest, banks, total => (banks, total, rest)
  | fuel + 1, l, rest, banks, total =>
    if pyStartsWith l "FBAN" then (banks, total, rest)
    else
      match rest with
      | [] => ((bankStep l banks total).1, (bankStep l banks total).2, [])
      | r :: rs =>
        bankLoop fuel r rs (bankStep l banks total).1 (bankStep l banks total).2

/-- Header-line field parsing of a DBSH record (the statements between
`dbsh_record = {...}` and the bank loop); int/float conversion failures
raise and propagate out of `parse_dbsh_section`. -/
def parseDbshHeader (l : String) : Except String DbshRecord := do
  let fb ← optE (pyIntParse (pySlice l 0 5))
  let tb ←
    if pyStrip (pySlice l 8 13) ≠ "" ∧ pyIsSpace (pyStrip (pySlice l 8 13)) = false then
      (optE (pyIntParse (pyStrip (pySlice l 8 13)))).map some
    else .ok none
  let cm := strOrDefault (pyStrip (pySlice l 17 18)) "C"
  let qini ← floatOrDefault (pyStrip (pySlice l 35 41)) 0
  let term ←
    if pyStrip (pyDrop l 46) ≠ "" ∧ pyIsSpace (pyStrip (pyDrop l 46)) = false then
      optE (pyIntParse (pyStrip (pyDrop l 46)))
    else .ok fb
  return ⟨fb, tb, cm, qini, term, 0, []⟩

/-- Comment skipping at the top of the DBSH loop
(`while line.startswith("("): line = readline()`); at end of input
`readline()` yields `""`. -/
def skipComments : String → List String → String × List String
  | l, [] => if pyStartsWith l "(" then ("", []) else (l, [])
  | l, r :: rs => if pyStartsWith l "(" then skipComments r rs else (l, r :: rs)

/-- Comment skipping after a completed record
(`while line.startswith("("): line = readline(); if not line: return`).
A `none` first component means the source returned the accumulated
records (empty line or end of input reached while skipping); the second
component is the unread rest of the file at that point. -/
def skipCommentsStop : String → List String → Option String × List String
  | l, [] => if pyStartsWith l "(" then (none, []) else (some l, [])
  | l, r :: rs =>
    if pyStartsWith l "(" then
      if r = "" then (none, rs) else skipCommentsStop r rs
    else (some l, r :: rs)

/-- The bank-reading phase for one DBSH record: read the next line, skip
comments, run the bank loop until `FBAN`, and fill in the record's
`total_shunt` and `banks`.  Returns the finished record and the unread
rest. -/
def dbshBanksPhase (hdr : DbshRecord) (rest : List String) :
    DbshRecord × List String :=
  let l2r : String × List String :=
    match rest with
    | [] => ("", [])
    | r :: rs => (r, rs)
  let l3r := skipComments l2r.1 l2r.2
  let bt := bankLoop (l3r.2.length + 1) l3r.1 l3r.2 [] 0
  ({ hdr with total_shunt := bt.2.1, banks := bt.1 }, bt.2.2)

/-- The main loop of `parse_dbsh_section`, over the current line and the
unread rest of the file.  On success returns the records and the unread
rest; a header conversion error propagates (carrying the file position at
the raise, which is where the scanner's `for` loop resumes).  The source
diverges at end of input (readline forever returning `""`); the model
returns instead at those points. -/
def dbshGo : Nat → String → List String → List DbshRecord →
    Except (String × List String) (List DbshRecord × List String)
  | 0, _, rest, acc => .ok (acc, rest)
  | fuel + 1, l0, rest0, acc =>
    match skipComments l0 rest0 with
    | (l, rest) =>
      if pyStrip l = "99999" ∨ pyStrip l = "FIM" then .ok (acc, rest)
      else
        match pyIntParse (pySlice l 0 5) with
        | none =>
          -- `except (ValueError, IndexError): line = readline(); continue`
          match rest with
          | [] => .ok (acc, [])
          | r :: rs => dbshGo fuel r rs acc
        | some cont =>
          if cont = 99999 then .ok (acc, rest)
          else
            match parseDbshHeader l with
            | .error e => .error (e, rest)
            | .ok hdr =>
              match dbshBanksPhase hdr rest with
              | (recd, rest2) =>
                match rest2 with
                | [] => .ok (acc ++ [recd], [])
                | r :: rs =>
                  if r = "" then .ok (acc ++ [recd], rs)
                  else
                    match skipCommentsStop r rs with
                    | (none, rem) => .ok (acc ++ [recd], rem)
                    | (some l4, rest4) => dbshGo fuel l4 rest4 (acc ++ [recd])

/-- `parse_dbsh_section(f, first_line)` with the unread lines `rest`. -/
def parse_dbsh_section (l : String) (rest : List String) :
    Except (String × List String) (List DbshRecord × List String) :=
  dbshGo (rest.length + 1) l rest []

/-- The specified value of `total_shunt`: the sum of
`units_in_operation × unit_reactive_power` over the Connected (`"L"`)
banks. -/
def sumConnected (banks : List DbshBank) : ℚ :=
  ((banks.filter (fun b => b.state = "L")).map
    (fun b => (b.units_in_operation : ℚ) * b.unit_reactive_power)).sum

/-! ## Section scanner (`parse_file`, anarede.py lines 112-183) -/

/-- `all_sections` exactly as listed in the source (including the
duplicated `"DMFL"`). -/
def allSections : List String :=
  ["TITU", "DBAR", "DLIN", "DGER", "DCSC", "DCER", "DBSH", "DSHL",
   "DOPC", "QLIM", "DGLT", "DARE", "DGBT", "DGGB", "DTPF", "DCAR",
   "DMFL", "DCTR", "DMFL", "DELO", "DCBA", "DCLI", "DCNV", "DCCV"]

/-- The scanner's mutable state: the accumulating result lists, the
current section, the one-shot title flag, and the warnings logged so far
(line number, section at the time, message). -/
structure ScanState where
  titu : List String
  dbar : List RecordDict
  dlin : List RecordDict
  dger : List RecordDict
  dcsc : List RecordDict
  dcer : List RecordDict
  dbsh : List DbshRecord
  dshl : List DshlRecord
  warnings : List (Nat × Option String × String)
  current : Option String
  tituRead : Bool
  deriving DecidableEq

/-- The initial scanner state. -/
def initScan : ScanState :=
  ⟨[], [], [], [], [], [], [], [], [], none, false⟩

/-- Append a caught-parse-failure warning
(`logger.warning(f"Error parsing line {line_num} in section {...}: {e}")`). -/
def pushWarn (st : ScanState) (n : Nat) (sec : Option String) (e : String) :
    ScanState :=
  { st with warnings := st.warnings ++ [(n, sec, e)] }

/-- The scanning loop of `parse_file`: one iteration per physical line
(`line_num` counts loop iterations, as `enumerate` does — lines consumed
inside the DBSH block parser do not advance it).  Every exception thrown
by a record parser on a data line is caught, logged, and scanning
continues with the next line. -/
def scanGo (sch : Mappings) : Nat → ScanState → Nat → List String → ScanState
  | 0, st, _, _ => st
  | _ + 1, st, _, [] => st
  | fuel + 1, st, n, line :: rest =>
    if pyStrip line = "FIM" then st
    else if pyStrip line = "99999" then
      scanGo sch fuel { st with current := none } (n + 1) rest
    else if pyStrip line ∈ allSections then
      scanGo sch fuel
        { st with current := some (pyStrip line),
                  tituRead := if pyStrip line = "TITU" then false else st.tituRead }
        (n + 1) rest
    else if pyStrip line = "" ∨ pyStartsWith (pyStrip line) "(" then
      scanGo sch fuel st (n + 1) rest
    else
      if st.current = some "TITU" then
        if ¬ st.tituRead then
          scanGo sch fuel
            { st with titu := st.titu ++ [pyStrip line], tituRead := true,
                      current := none } (n + 1) rest
        else scanGo sch fuel st (n + 1) rest
      else if st.current = some "DBAR" then
        match parse_record (fieldsFor sch "DBAR") 20 line with
        | .ok r => scanGo sch fuel { st with dbar := st.dbar ++ [r] } (n + 1) rest
        | .error e => scanGo sch fuel (pushWarn st n st.current e) (n + 1) rest
      else if st.current = some "DLIN" then
        match parse_record (fieldsFor sch "DLIN") 20 line with
        | .ok r => scanGo sch fuel { st with dlin := st.dlin ++ [r] } (n + 1) rest
        | .error e => scanGo sch fuel (pushWarn st n st.current e) (n + 1) rest
      else if st.current = some "DGER" then
        match parse_record (fieldsFor sch "DGER") 10 line with
        | .ok r => scanGo sch fuel { st with dger := st.dger ++ [r] } (n + 1) rest
        | .error e => scanGo sch fuel (pushWarn st n st.current e) (n + 1) rest
      else if st.current = some "DCSC" then
        match parse_record (fieldsFor sch "DCSC") 10 line with
        | .ok r => scanGo sch fuel { st with dcsc := st.dcsc ++ [r] } (n + 1) rest
        | .error e => scanGo sch fuel (pushWarn st n st.current e) (n + 1) rest
      else if st.current = some "DCER" then
        match parse_record (fieldsFor sch "DCER") 10 line with
        | .ok r => scanGo sch fuel { st with dcer := st.dcer ++ [r] } (n + 1) rest
        | .error e => scanGo sch fuel (pushWarn st n st.current e) (n + 1) rest
      else if st.current = some "DBSH" then
        match parse_dbsh_section line rest with
        | .ok (recs, rest2) =>
          scanGo sch fuel { st with dbsh := st.dbsh ++ recs } (n + 1) rest2
        | .error (e, rest2) =>
          scanGo sch fuel (pushWarn st n st.current e) (n + 1) rest2
      else if st.current = some "DSHL" then
        match parse_dshl_record line with
        | .ok r => scanGo sch fuel { st with dshl := st.dshl ++ [r] } (n + 1) rest
        | .error e => scanGo sch fuel (pushWarn st n st.current e) (n + 1) rest
      else scanGo sch fuel st (n + 1) rest

/-- The scanning phase of `parse_file` over the file's (newline-stripped)
lines.  The post-scan integration passes are modelled separately below on
the structured record views. -/
def parse_file_scan (sch : Mappings) (lines : List String) : ScanState :=
  scanGo sch (lines.length + 1) initScan 1 lines

/-! ## Structured record views used by integration and serialization -/

/-- The fields of a DBAR (bus) dict that the integration passes and the
serializer read.  `number` is `none` when absent; Python truthiness makes
`some 0` behave like an absent number in every lookup below. -/
structure BusRec where
  number : Option Int
  state : Option String
  capacitor_reactor : Option PyVal
  deriving DecidableEq

/-- The fields of a DLIN (line) dict that the integration passes and the
serializer read. -/
structure DlinRec where
  state : Option String
  from_bus : Option Int
  to_bus : Option Int
  resistance : Option ℚ
  reactance : Option ℚ
  susceptance : Option ℚ
  tap : Option PyVal
  tap_maximum : Option ℚ
  tap_minimum : Option ℚ
  phase_shift : Option ℚ
  normal_capacity : Option ℚ
  deriving DecidableEq

/-- The warnings emitted by the two integration passes. -/
inductive IntWarning where
  | bshBusError (debsh : Int) (s : Nat)
  | shlLineNotFound (de pa : Int)
  | shlBusFromError (de : Int) (s : Nat)
  | shlBusToError (pa : Int) (s : Nat)
  deriving DecidableEq

/-- The truthiness-guarded match `Num_k and int(Num_k) == target` used by
every bus and line-endpoint lookup in the integration passes. -/
def optIntMatch (o : Option Int) (t : Int) : Bool :=
  match o with
  | some n => (n != 0) && (n == t)
  | none => false

/-- First index of a bus whose (truthy) number equals `t`
(the `for k in range(1, nb + 1): ... break` search). -/
def findBusIdx (t : Int) : List BusRec → Option Nat
  | [] => none
  | b :: rest =>
    if optIntMatch b.number t then some 0
    else (findBusIdx t rest).map (· + 1)

/-- In-place update of the `k`-th element of a list. -/
def updateAt (l : List α) (k : Nat) (f : α → α) : List α :=
  match l, k with
  | [], _ => []
  | a :: rest, 0 => f a :: rest
  | a :: rest, j + 1 => a :: updateAt rest j f

/-- The numeric reading of a bus's `capacitor_reactor` field used by both
passes: absent ⇒ 0.0; a string is converted with `float`, falling back to
0.0 on `ValueError`. -/
def capVal : Option PyVal → ℚ
  | none => 0
  | some (.vfloat q) => q
  | some (.vint n) => (n : ℚ)
  | some (.vstr s) => (pyFloatParse s).getD 0

/-- `Sh[k-1] = Sh[k-1] + x`: store the incremented float back into the
`capacitor_reactor` field. -/
def addShunt (x : ℚ) (b : BusRec) : BusRec :=
  { b with capacitor_reactor := some (.vfloat (capVal b.capacitor_reactor + x)) }

/-! ## Integration Pass A (`_integrate_dbsh_into_dbar`, lines 582-637) -/

/-- One iteration of the `s` loop of Pass A: find the first bus whose
truthy number equals the bank's `terminal_bus`; on a miss warn
(identifying the bank's `from_bus` and the 1-based bank index `s`) and
skip; on a hit add `total_shunt` to that bus's accumulated shunt. -/
def dbshStep (s : Nat) (r : DbshRecord) (buses : List BusRec)
    (ws : List IntWarning) : List BusRec × List IntWarning :=
  match findBusIdx r.terminal_bus buses with
  | none => (buses, ws ++ [.bshBusError r.from_bus s])
  | some k => (updateAt buses k (addShunt r.total_shunt), ws)

/-- The `s` loop of Pass A, starting at 1-based index `s`. -/
def integrateDbshFrom (s : Nat) : List DbshRecord →
    List BusRec × List IntWarning → List BusRec × List IntWarning
  | [], st => st
  | r :: rest, (buses, ws) => integrateDbshFrom (s + 1) rest (dbshStep s r buses ws)

/-- `_integrate_dbsh_into_dbar`. -/
def integrate_dbsh (dbsh : List DbshRecord) (buses : List BusRec) :
    List BusRec × List IntWarning :=
  integrateDbshFrom 1 dbsh (buses, [])

/-! ## Integration Pass B (`_integrate_dshl_into_dbar`, lines 639-762) -/

/-- The line-matching condition of Pass B:
`(De_l and int(De_l) == Deshl_s and Pa_l and int(Pa_l) == Pashl_s) or
 (Pa_l and int(Pa_l) == Deshl_s and De_l and int(De_l) == Pashl_s)`. -/
def lineMatches (de pa : Int) (r : DlinRec) : Bool :=
  (optIntMatch r.from_bus de && optIntMatch r.to_bus pa) ||
  (optIntMatch r.to_bus de && optIntMatch r.from_bus pa)

/-- One iteration of the `s` loop of Pass B, transcribing the two
near-identical FROM/TO bus blocks of the source. -/
def dshlStep (dlin : List DlinRec) (s : Nat) (d : DshlRecord)
    (buses : List BusRec) (ws : List IntWarning) :
    List BusRec × List IntWarning :=
  match dlin.find? (lineMatches d.from_bus d.to_bus) with
  | none => (buses, ws ++ [.shlLineNotFound d.from_bus d.to_bus])
  | some r0 =>
    if r0.state.getD "L" = "L" then
      -- FROM-side block
      let bw1 : List BusRec × List IntWarning :=
        match findBusIdx d.from_bus buses with
        | none => (buses, ws ++ [.shlBusFromError d.from_bus s])
        | some k =>
          (if d.state_from = "L" then updateAt buses k (addShunt d.shunt_from)
           else buses, ws)
      -- TO-side block
      match findBusIdx d.to_bus bw1.1 with
      | none => (bw1.1, bw1.2 ++ [.shlBusToError d.to_bus s])
      | some k =>
        (if d.state_to = "L" then updateAt bw1.1 k (addShunt d.shunt_to)
         else bw1.1, bw1.2)
    else (buses, ws)

/-- One side (FROM or TO) of Pass B as a standalone operation: used to
state the correctness theorem compositionally. -/
def applySide (target : Int) (st : String) (sh : ℚ) (missWarn : IntWarning)
    (buses : List BusRec) (ws : List IntWarning) :
    List BusRec × List IntWarning :=
  match findBusIdx target buses with
  | none => (buses, ws ++ [missWarn])
  | some k =>
    (if st = "L" then updateAt buses k (addShunt sh) else buses, ws)

/-- The `s` loop of Pass B, starting at 1-based index `s`. -/
def integrateDshlFrom (dlin : List DlinRec) (s : Nat) : List DshlRecord →
    List BusRec × List IntWarning → List BusRec × List IntWarning
  | [], st => st
  | d :: rest, (buses, ws) =>
    integrateDshlFrom dlin (s + 1) rest (dshlStep dlin s d buses ws)

/-- `_integrate_dshl_into_dbar`. -/
def integrate_dshl (dshl : List DshlRecord) (dlin : List DlinRec)
    (buses : List BusRec) : List BusRec × List IntWarning :=
  integrateDshlFrom dlin 1 dshl (buses, [])

/-! ## Case serializer, DLIN block (`_format_dat_file`, cli_functions.py
lines 213-295) -/

/-- The connected-bus set built before the DLIN block: buses whose state
is `"L"` and whose number is truthy (`if bus_num:`). -/
def connectedBuses : List BusRec → List Int
  | [] => []
  | b :: rest =>
    if b.state.getD "L" = "L" then
      match b.number with
      | some n => if n ≠ 0 then n :: connectedBuses rest else connectedBuses rest
      | none => connectedBuses rest
    else connectedBuses rest

/-- `int(d.get(key, 0)) if d.get(key) else 0` for an int-valued field. -/
def optIntOrZero (o : Option Int) : Int :=
  match o with
  | some n => if n ≠ 0 then n else 0
  | none => 0

/-- `float(d.get(key, dflt)) / 100.0 if d.get(key) else 0`:
the percent-to-per-unit conversion applied to resistance, reactance and
susceptance. -/
def pct100 (o : Option ℚ) : ℚ :=
  match o with
  | some q => if q ≠ 0 then q / 100 else 0
  | none => 0

/-- `float(d.get(key, 0.0)) if d.get(key) else 0.0` (tap limits, phase
shift). -/
def truthyQ (o : Option ℚ) : ℚ :=
  match o with
  | some q => if q ≠ 0 then q else 0
  | none => 0

/-- `float(d.get("normal_capacity", INFINITY_VALUE)) if d.get(...) else
99999.0`. -/
def cnVal (o : Option ℚ) : ℚ :=
  match o with
  | some q => if q ≠ 0 then q else 99999
  | none => 99999

/-- The tap/transformer-flag logic: `None`, an empty string or an
all-space string yields `(0.0, 0)`; any other value is converted with
`float` (raising on an unparsable string) and flagged `1`. -/
def tapTr : Option PyVal → Except String (ℚ × Int)
  | none => .ok (0, 0)
  | some (.vstr s) =>
    if pyIsSpace s = true ∨ s = "" then .ok (0, 0)
    else
      match pyFloatParse s with
      | some q => .ok (q, 1)
      | none => .error "ValueError"
  | some (.vfloat q) => .ok (q, 1)
  | some (.vint n) => .ok ((n : ℚ), 1)

/-- One emitted DLIN entry (the numeric payload of the formatted row;
fixed-width text rendering is a display concern outside the claims). -/
structure DlinEntry where
  idx : Int
  from_bus : Int
  to_bus : Int
  tr : Int
  r : ℚ
  x : ℚ
  bshl : ℚ
  tap : ℚ
  tmx : ℚ
  tmn : ℚ
  psh : ℚ
  cn : ℚ
  deriving DecidableEq

/-- Build the emitted entry for one record (the body of the emission
branch). -/
def mkEntry (idx : Int) (fb tb : Int) (rcd : DlinRec) :
    Except String DlinEntry :=
  match tapTr rcd.tap with
  | .error e => .error e
  | .ok tt =>
    .ok ⟨idx, fb, tb, tt.2, pct100 rcd.resistance, pct100 rcd.reactance,
         pct100 rcd.susceptance, tt.1, truthyQ rcd.tap_maximum,
         truthyQ rcd.tap_minimum, truthyQ rcd.phase_shift,
         cnVal rcd.normal_capacity⟩

/-- The endpoint locals after one loop iteration: `from_bus`/`to_bus`
are (re)assigned from the record only when its state is `"L"`; otherwise
the previous (possibly unassigned) values persist. -/
def dlinBound (bound : Option (Int × Int)) (rcd : DlinRec) :
    Option (Int × Int) :=
  if rcd.state.getD "L" = "L" then
    some (optIntOrZero rcd.from_bus, optIntOrZero rcd.to_bus)
  else bound

/-- The DLIN emission loop of `_format_dat_file`, transcribed with its
actual indentation: the `from_bus`/`to_bus` locals are (re)assigned only
when the record's state is `"L"`, while the endpoint-connectivity check
and the emission body run on EVERY record, reusing the stale locals for a
non-connected record.  `bound` carries those locals (`none` = not yet
assigned; using them then is a `NameError`). -/
def formatDlinGo (connected : List Int) :
    Option (Int × Int) → Int → List DlinRec → Except String (List DlinEntry)
  | _, _, [] => .ok []
  | bound, idx, rcd :: rest =>
    match dlinBound bound rcd with
    | none => .error "NameError"
    | some (fb, tb) =>
      if fb ∈ connected ∧ tb ∈ connected then
        match mkEntry idx fb tb rcd with
        | .error e => .error e
        | .ok entry =>
          (formatDlinGo connected (some (fb, tb)) (idx + 1) rest).map
            (fun es => entry :: es)
      else formatDlinGo connected (some (fb, tb)) idx rest

/-- The DLIN block of `_format_dat_file` as a function from the document
to the emitted entries. -/
def formatDlin (dbar : List BusRec) (dlin : List DlinRec) :
    Except String (List DlinEntry) :=
  formatDlinGo (connectedBuses dbar) none 1 dlin

/-- A tap field that the serializer treats as absent/blank:
`tap_val is None or str(tap_val).isspace() or str(tap_val) == ""`. -/
def tapBlank (t : Option PyVal) : Prop :=
  t = none ∨ ∃ s, t = some (.vstr s) ∧ (s = "" ∨ pyIsSpace s = true)

/-- The numeric value of a present, non-blank, convertible tap field. -/
def tapNumVal : Option PyVal → Option ℚ
  | none => none
  | some (.vint n) => some ((n : ℚ))
  | some (.vfloat q) => some q
  | some (.vstr s) =>
    if s = "" ∨ pyIsSpace s = true then none else pyFloatParse s

/-- Whether an `Except` value is an error. -/
def isErrB : Except ε α → Bool
  | .error _ => true
  | .ok _ => false

/-- Whether the record parser of a (supported, per-line) section raises
on a given data line. -/
def sectionParserFails (sch : Mappings) (sec line : String) : Bool :=
  match sec with
  | "DBAR" => isErrB (parse_record (fieldsFor sch "DBAR") 20 line)
  | "DLIN" => isErrB (parse_record (fieldsFor sch "DLIN") 20 line)
  | "DGER" => isErrB (parse_record (fieldsFor sch "DGER") 10 line)
  | "DCSC" => isErrB (parse_record (fieldsFor sch "DCSC") 10 line)
  | "DCER" => isErrB (parse_record (fieldsFor sch "DCER") 10 line)
  | "DSHL" => isErrB (parse_dshl_record line)
  | _ => false

end Pyx

deriving instance DecidableEq for Except

namespace Pyx

/-! # Helper lemmas -/

theorem optIntMatch_zero (o : Option Int) : optIntMatch o 0 = false := by
  cases o with
  | none => rfl
  | some n =>
    simp only [optIntMatch, Bool.and_eq_false_iff]
    by_cases h : n = 0
    · subst h; left; simp
    · right; simp [h]

theorem optIntMatch_true_iff (o : Option Int) (t : Int) :
    optIntMatch o t = true ↔ o = some t ∧ t ≠ 0 := by
  cases o with
  | none => simp [optIntMatch]
  | some n =>
    simp only [optIntMatch, Bool.and_eq_true, bne_iff_ne, beq_iff_eq,
      Option.some.injEq]
    constructor
    · rintro ⟨h1, h2⟩; subst h2; exact ⟨rfl, h1⟩
    · rintro ⟨h1, h2⟩; subst h1; exact ⟨h2, rfl⟩

theorem findBusIdx_none_iff (t : Int) (l : List BusRec) :
    findBusIdx t l = none ↔ ∀ b ∈ l, optIntMatch b.number t = false := by
  induction l with
  | nil => simp [findBusIdx]
  | cons b rest ih =>
    simp only [findBusIdx, List.mem_cons]
    by_cases h : optIntMatch b.number t
    · simp [h]
    · rw [if_neg h]
      constructor
      · intro hmap c hc
        have hrest : findBusIdx t rest = none := by
          cases hx : findBusIdx t rest with
          | none => rfl
          | some j => rw [hx] at hmap; exact Option.noConfusion hmap
        rcases hc with hc | hc
        · subst hc; simpa using h
        · exact (ih.mp hrest) c hc
      · intro hall
        have hrest : findBusIdx t rest = none :=
          ih.mpr (fun c hc => hall c (Or.inr hc))
        rw [hrest]; rfl

theorem findBusIdx_some (t : Int) (l : List BusRec) (k : Nat)
    (h : findBusIdx t l = some k) :
    ∃ b, l.get? k = some b ∧ optIntMatch b.number t = true := by
  induction l generalizing k with
  | nil => simp [findBusIdx] at h
  | cons b rest ih =>
    simp only [findBusIdx] at h
    by_cases hm : optIntMatch b.number t
    · rw [if_pos hm] at h
      cases h
      exact ⟨b, rfl, hm⟩
    · rw [if_neg hm] at h
      cases hrec : findBusIdx t rest with
      | none => rw [hrec] at h; exact Option.noConfusion h
      | some j =>
        rw [hrec] at h
        have h2 : j + 1 = k := Option.some.inj h
        subst h2
        obtain ⟨c, hc1, hc2⟩ := ih j hrec
        exact ⟨c, by simpa using hc1, hc2⟩

theorem findBusIdx_isSome_of_exists (t : Int) (l : List BusRec)
    (h : ∃ b ∈ l, optIntMatch b.number t = true) :
    ∃ k, findBusIdx t l = some k := by
  cases hf : findBusIdx t l with
  | none =>
    obtain ⟨b, hb, hm⟩ := h
    rw [findBusIdx_none_iff] at hf
    rw [hf b hb] at hm
    cases hm
  | some k => exact ⟨k, rfl⟩

theorem updateAt_get?_self (l : List α) (k : Nat) (f : α → α) :
    (updateAt l k f).get? k = (l.get? k).map f := by
  induction l generalizing k with
  | nil => simp [updateAt]
  | cons a rest ih =>
    cases k with
    | zero => simp [updateAt]
    | succ j => simpa [updateAt] using ih j

theorem updateAt_get?_ne (l : List α) (k j : Nat) (f : α → α) (h : j ≠ k) :
    (updateAt l k f).get? j = l.get? j := by
  induction l generalizing k j with
  | nil => simp [updateAt]
  | cons a rest ih =>
    cases k with
    | zero =>
      cases j with
      | zero => exact absurd rfl h
      | succ i => simp [updateAt]
    | succ m =>
      cases j with
      | zero => simp [updateAt]
      | succ i =>
        simp only [updateAt, List.get?_cons_succ]
        exact ih m i (fun he => h (by rw [he]))

theorem addShunt_number (x : ℚ) (b : BusRec) : (addShunt x b).number = b.number := rfl

theorem findBusIdx_updateAt (t : Int) (l : List BusRec) (k : Nat) (x : ℚ) :
    findBusIdx t (updateAt l k (addShunt x)) = findBusIdx t l := by
  induction l generalizing k with
  | nil => simp [updateAt]
  | cons b rest ih =>
    cases k with
    | zero => simp [updateAt, findBusIdx, optIntMatch, addShunt]
    | succ j => simp [updateAt, findBusIdx, ih j]

theorem skipComments_not_comment (l : String) (rest : List String)
    (h : pyStartsWith l "(" = false) : skipComments l rest = (l, rest) := by
  cases rest <;> simp [skipComments, h]

theorem sumConnected_append_single (banks : List DbshBank) (b : DbshBank) :
    sumConnected (banks ++ [b]) =
      sumConnected banks +
        (if b.state = "L" then
           (b.units_in_operation : ℚ) * b.unit_reactive_power
         else 0) := by
  unfold sumConnected
  rw [List.filter_append, List.map_append, List.sum_append]
  by_cases h : b.state = "L"
  · simp [h]
  · simp [h]

theorem bankStep_total (l : String) (banks : List DbshBank) (total : ℚ)
    (h : total = sumConnected banks) :
    (bankStep l banks total).2 = sumConnected (bankStep l banks total).1 := by
  unfold bankStep
  by_cases hg : pyStrip l ≠ "" ∧ ¬ pyStartsWith l "("
  · rw [if_pos hg]
    cases hp : parseBankLine l with
    | none => exact h
    | some b =>
      simp only []
      rw [sumConnected_append_single]
      by_cases hb : b.state = "L"
      · rw [if_pos hb, if_pos hb, h]
      · rw [if_neg hb, if_neg hb, h, add_zero]
  · rw [if_neg hg]
    exact h

theorem bankLoop_total (fuel : Nat) :
    ∀ (l : String) (rest : List String) (banks : List DbshBank) (total : ℚ),
    total = sumConnected banks →
    (bankLoop fuel l rest banks total).2.1 =
      sumConnected (bankLoop fuel l rest banks total).1 := by
  induction fuel with
  | zero =>
    intro l rest banks total h
    simpa [bankLoop] using h
  | succ n ih =>
    intro l rest banks total h
    simp only [bankLoop]
    by_cases hf : pyStartsWith l "FBAN"
    · simp [hf, h]
    · rw [if_neg hf]
      cases rest with
      | nil => exact bankStep_total l banks total h
      | cons r rs => exact ih r rs _ _ (bankStep_total l banks total h)

theorem dbshBanksPhase_total (hdr : DbshRecord) (rest : List String) :
    (dbshBanksPhase hdr rest).1.total_shunt =
      sumConnected (dbshBanksPhase hdr rest).1.banks := by
  unfold dbshBanksPhase
  exact bankLoop_total _ _ _ [] 0 (by simp [sumConnected])

theorem dbshGo_total (fuel : Nat) :
    ∀ (l0 : String) (rest0 : List String) (acc res : List DbshRecord)
      (rem : List String),
    (∀ r ∈ acc, r.total_shunt = sumConnected r.banks) →
    dbshGo fuel l0 rest0 acc = .ok (res, rem) →
    ∀ r ∈ res, r.total_shunt = sumConnected r.banks := by
  induction fuel with
  | zero =>
    intro l0 rest0 acc res rem hacc h
    simp only [dbshGo] at h
    cases h
    exact hacc
  | succ n ih =>
    intro l0 rest0 acc res rem hacc h
    rw [dbshGo] at h
    cases hsc : skipComments l0 rest0 with
    | mk l rest =>
    rw [hsc] at h
    dsimp only at h
    by_cases hsent : pyStrip l = "99999" ∨ pyStrip l = "FIM"
    · rw [if_pos hsent] at h
      cases h
      exact hacc
    · rw [if_neg hsent] at h
      cases hint : pyIntParse (pySlice l 0 5) with
      | none =>
        rw [hint] at h
        dsimp only at h
        cases rest with
        | nil => cases h; exact hacc
        | cons r rs => exact ih r rs acc res rem hacc h
      | some cont =>
        rw [hint] at h
        dsimp only at h
        by_cases hc : cont = 99999
        · rw [if_pos hc] at h
          cases h
          exact hacc
        · rw [if_neg hc] at h
          cases hhdr : parseDbshHeader l with
          | error e =>
            rw [hhdr] at h
            exact Except.noConfusion h
          | ok hdr =>
            rw [hhdr] at h
            dsimp only at h
            cases hbp : dbshBanksPhase hdr rest with
            | mk recd rest2 =>
            rw [hbp] at h
            dsimp only at h
            have hrec : recd.total_shunt = sumConnected recd.banks := by
              have hx := dbshBanksPhase_total hdr rest
              rw [hbp] at hx
              exact hx
            have hacc2 : ∀ r ∈ acc ++ [recd],
                r.total_shunt = sumConnected r.banks := by
              intro r hr
              rcases List.mem_append.mp hr with hr | hr
              · exact hacc r hr
              · rw [List.mem_singleton.mp hr]
                exact hrec
            cases rest2 with
            | nil => cases h; exact hacc2
            | cons r rs =>
              rw [show (match r :: rs with
                  | [] => Except.ok (acc ++ [recd], ([] : List String))
                  | r :: rs =>
                    if r = "" then Except.ok (acc ++ [recd], rs)
                    else
                      match skipCommentsStop r rs with
                      | (none, rem) => Except.ok (acc ++ [recd], rem)
                      | (some l4, rest4) => dbshGo n l4 rest4 (acc ++ [recd])) =
                  (if r = "" then Except.ok (acc ++ [recd], rs)
                   else
                     match skipCommentsStop r rs with
                     | (none, rem) => Except.ok (acc ++ [recd], rem)
                     | (some l4, rest4) =>
                       dbshGo n l4 rest4 (acc ++ [recd])) from rfl] at h
              by_cases hre : r = ""
              · rw [if_pos hre] at h
                cases h
                exact hacc2
              · rw [if_neg hre] at h
                cases hss : skipCommentsStop r rs with
                | mk o rem2 =>
                rw [hss] at h
                cases o with
                | none => cases h; exact hacc2
                | some l4 => exact ih l4 rem2 (acc ++ [recd]) res rem hacc2 h

theorem findBusIdx_spec_pos (t : Int) (l : List BusRec)
    (h : ∃ b ∈ l, b.number = some t ∧ t ≠ 0) :
    ∃ k b, findBusIdx t l = some k ∧ l.get? k = some b ∧ b.number = some t := by
  obtain ⟨b0, hb0, hnum, hne⟩ := h
  obtain ⟨k, hk⟩ := findBusIdx_isSome_of_exists t l
    ⟨b0, hb0, (optIntMatch_true_iff _ _).mpr ⟨hnum, hne⟩⟩
  obtain ⟨b, hbg, hbm⟩ := findBusIdx_some t l k hk
  exact ⟨k, b, hk, hbg, ((optIntMatch_true_iff _ _).mp hbm).1⟩

theorem findBusIdx_spec_neg (t : Int) (l : List BusRec)
    (h : ¬ ∃ b ∈ l, b.number = some t ∧ t ≠ 0) :
    findBusIdx t l = none := by
  rw [findBusIdx_none_iff]
  intro b hb
  cases hx : optIntMatch b.number t with
  | false => rfl
  | true =>
    obtain ⟨h1, h2⟩ := (optIntMatch_true_iff _ _).mp hx
    exact absurd ⟨b, hb, h1, h2⟩ h

theorem findBusIdx_zero (l : List BusRec) : findBusIdx 0 l = none :=
  (findBusIdx_none_iff 0 l).mpr (fun b _ => optIntMatch_zero b.number)

theorem lineMatches_iff (de pa : Int) (r : DlinRec) :
    lineMatches de pa r = true ↔
      (((r.from_bus = some de ∧ r.to_bus = some pa) ∨
        (r.to_bus = some de ∧ r.from_bus = some pa))
       ∧ de ≠ 0 ∧ pa ≠ 0) := by
  unfold lineMatches
  simp only [Bool.or_eq_true, Bool.and_eq_true, optIntMatch_true_iff]
  constructor
  · rintro (⟨⟨h1, h2⟩, h3, h4⟩ | ⟨⟨h1, h2⟩, h3, h4⟩)
    · exact ⟨Or.inl ⟨h1, h3⟩, h2, h4⟩
    · exact ⟨Or.inr ⟨h1, h3⟩, h2, h4⟩
  · rintro ⟨h1 | h1, h2, h3⟩
    · exact Or.inl ⟨⟨h1.1, h2⟩, h1.2, h3⟩
    · exact Or.inr ⟨⟨h1.1, h2⟩, h1.2, h3⟩

theorem lineMatches_zero (de pa : Int) (r : DlinRec)
    (h : de = 0 ∨ pa = 0) : lineMatches de pa r = false := by
  cases hx : lineMatches de pa r with
  | false => rfl
  | true =>
    obtain ⟨_, h2, h3⟩ := (lineMatches_iff de pa r).mp hx
    rcases h with h | h
    · exact absurd h h2
    · exact absurd h h3

theorem isErrB_elim (x : Except ε α) (h : isErrB x = true) :
    ∃ e, x = .error e := by
  cases x with
  | error e => exact ⟨e, rfl⟩
  | ok a => simp [isErrB] at h

theorem sectionParserFails_elim (sch : Mappings) (sec line : String)
    (h : sectionParserFails sch sec line = true) :
    (sec = "DBAR" ∧ ∃ e, parse_record (fieldsFor sch "DBAR") 20 line = .error e)
    ∨ (sec = "DLIN" ∧ ∃ e, parse_record (fieldsFor sch "DLIN") 20 line = .error e)
    ∨ (sec = "DGER" ∧ ∃ e, parse_record (fieldsFor sch "DGER") 10 line = .error e)
    ∨ (sec = "DCSC" ∧ ∃ e, parse_record (fieldsFor sch "DCSC") 10 line = .error e)
    ∨ (sec = "DCER" ∧ ∃ e, parse_record (fieldsFor sch "DCER") 10 line = .error e)
    ∨ (sec = "DSHL" ∧ ∃ e, parse_dshl_record line = .error e) := by
  unfold sectionParserFails at h
  split at h
  · exact Or.inl ⟨rfl, isErrB_elim _ h⟩
  · exact Or.inr (Or.inl ⟨rfl, isErrB_elim _ h⟩)
  · exact Or.inr (Or.inr (Or.inl ⟨rfl, isErrB_elim _ h⟩))
  · exact Or.inr (Or.inr (Or.inr (Or.inl ⟨rfl, isErrB_elim _ h⟩)))
  · exact Or.inr (Or.inr (Or.inr (Or.inr (Or.inl ⟨rfl, isErrB_elim _ h⟩))))
  · exact Or.inr (Or.inr (Or.inr (Or.inr (Or.inr ⟨rfl, isErrB_elim _ h⟩))))
  · exact Bool.noConfusion h

theorem pct100_eq_getD (o : Option ℚ) : pct100 o = (o.getD 0) / 100 := by
  cases o with
  | none => simp [pct100]
  | some q =>
    by_cases h : q = 0
    · simp [pct100, h]
    · simp [pct100, h]

theorem tapTr_blank (t : Option PyVal) (h : tapBlank t) :
    tapTr t = .ok (0, 0) := by
  rcases h with h | ⟨s, hs, hb⟩
  · rw [h]; rfl
  · rw [hs]
    simp only [tapTr]
    rw [if_pos (Or.symm hb)]

theorem tapTr_num (t : Option PyVal) (q : ℚ) (h : tapNumVal t = some q) :
    tapTr t = .ok (q, 1) := by
  cases t with
  | none => exact Option.noConfusion h
  | some v =>
    cases v with
    | vint n =>
      simp only [tapNumVal, Option.some.injEq] at h
      rw [← h]; rfl
    | vfloat p =>
      simp only [tapNumVal, Option.some.injEq] at h
      rw [← h]; rfl
    | vstr s =>
      simp only [tapNumVal] at h
      by_cases hc : s = "" ∨ pyIsSpace s = true
      · rw [if_pos hc] at h; exact Option.noConfusion h
      · rw [if_neg hc] at h
        simp only [tapTr]
        rw [if_neg (fun hx => hc (Or.symm hx)), h]

theorem mkEntry_fields (idx : Int) (fb tb : Int) (rcd : DlinRec)
    (e : DlinEntry) (h : mkEntry idx fb tb rcd = .ok e) :
    e.r = (rcd.resistance.getD 0) / 100
    ∧ e.x = (rcd.reactance.getD 0) / 100
    ∧ e.bshl = (rcd.susceptance.getD 0) / 100
    ∧ (tapBlank rcd.tap → e.tap = 0 ∧ e.tr = 0)
    ∧ (∀ q, tapNumVal rcd.tap = some q → e.tap = q ∧ e.tr = 1) := by
  cases ht : tapTr rcd.tap with
  | error e2 =>
    unfold mkEntry at h
    rw [ht] at h
    exact Except.noConfusion h
  | ok tt =>
    have h2 : (⟨idx, fb, tb, tt.2, pct100 rcd.resistance, pct100 rcd.reactance,
        pct100 rcd.susceptance, tt.1, truthyQ rcd.tap_maximum,
        truthyQ rcd.tap_minimum, truthyQ rcd.phase_shift,
        cnVal rcd.normal_capacity⟩ : DlinEntry) = e := by
      have h3 := h
      unfold mkEntry at h3
      rw [ht] at h3
      exact Except.ok.inj h3
    rw [← h2]
    refine ⟨pct100_eq_getD _, pct100_eq_getD _, pct100_eq_getD _, ?_, ?_⟩
    · intro hb
      have h4 := tapTr_blank rcd.tap hb
      rw [ht] at h4
      have h5 : tt = (0, 0) := Except.ok.inj h4
      rw [h5]
      exact ⟨rfl, rfl⟩
    · intro q hq
      have h4 := tapTr_num rcd.tap q hq
      rw [ht] at h4
      have h5 : tt = (q, 1) := Except.ok.inj h4
      rw [h5]
      exact ⟨rfl, rfl⟩

theorem formatDlinGo_mem (connected : List Int) :
    ∀ (l : List DlinRec) (bound : Option (Int × Int)) (idx : Int)
      (es : List DlinEntry),
    formatDlinGo connected bound idx l = .ok es →
    ∀ e ∈ es, ∃ rcd ∈ l, ∃ i fb tb, mkEntry i fb tb rcd = .ok e := by
  intro l
  induction l with
  | nil =>
    intro bound idx es h e he
    rw [formatDlinGo] at h
    cases h
    cases he
  | cons rcd rest ih =>
    intro bound idx es h e he
    rw [formatDlinGo] at h
    cases hb : dlinBound bound rcd with
    | none => rw [hb] at h; exact Except.noConfusion h
    | some p =>
      obtain ⟨fb, tb⟩ := p
      rw [hb] at h
      dsimp only at h
      by_cases hmem : fb ∈ connected ∧ tb ∈ connected
      · rw [if_pos hmem] at h
        cases hmk : mkEntry idx fb tb rcd with
        | error e2 => rw [hmk] at h; exact Except.noConfusion h
        | ok entry =>
          rw [hmk] at h
          cases hrec : formatDlinGo connected (some (fb, tb)) (idx + 1) rest with
          | error e2 => rw [hrec] at h; exact Except.noConfusion h
          | ok es2 =>
            rw [hrec] at h
            have hes : entry :: es2 = es := Except.ok.inj h
            rw [← hes] at he
            rcases List.mem_cons.mp he with he | he
            · exact ⟨rcd, List.mem_cons_self rcd rest, idx, fb, tb,
                by rw [he]; exact hmk⟩
            · obtain ⟨rcd2, hr2, i, f2, t2, hmk2⟩ := ih (some (fb, tb)) (idx + 1) es2 hrec e he
              exact ⟨rcd2, List.mem_cons_of_mem rcd hr2, i, f2, t2, hmk2⟩
      · rw [if_neg hmem] at h
        obtain ⟨rcd2, hr2, i, f2, t2, hmk2⟩ := ih (some (fb, tb)) idx es h e he
        exact ⟨rcd2, List.mem_cons_of_mem rcd hr2, i, f2, t2, hmk2⟩

/-! # Claim theorems -/

/-- C2: field extraction is total; the selected substring is clamped to
the line (empty when `start` exceeds the line length); an
empty-after-trim substring yields the unconverted schema default; a
non-empty substring that does not parse as the declared Integer/Real type
also yields the default. -/
theorem extract_field_value_total_defaults (line : String)
    (start colEnd : Nat) (d : PyVal) (hs : 1 ≤ start) :
    (line.length < start → rawFieldValue line start colEnd = "")
    ∧ (rawFieldValue line start colEnd = "" →
        extractWithDefault line start colEnd d = d)
    ∧ (rawFieldValue line start colEnd ≠ "" →
        parsesAs (dataTypeOf d) (rawFieldValue line start colEnd) = false →
        extractWithDefault line start colEnd d = d) := by
  refine ⟨?_, ?_, ?_⟩
  · intro hlen
    have hdrop : line.toList.drop (start - 1) = [] := by
      apply List.drop_eq_nil_of_le
      have hLen : line.toList.length = line.length := rfl
      omega
    unfold rawFieldValue pySlice pyDrop
    by_cases hend : colEnd ≤ line.length
    · rw [if_pos hend, hdrop, List.take_nil]
      decide
    · rw [if_neg hend, hdrop]
      decide
  · intro hraw
    simp [extractWithDefault, extract_field_value, hraw]
  · intro hraw hp
    cases hd : dataTypeOf d with
    | tstr =>
      rw [hd] at hp
      simp [parsesAs] at hp
    | tint =>
      rw [hd] at hp
      have hnone : pyIntParse (rawFieldValue line start colEnd) = none := by
        cases hx : pyIntParse (rawFieldValue line start colEnd) with
        | none => rfl
        | some v => simp [parsesAs, hx] at hp
      simp [extractWithDefault, extract_field_value, hraw, hd, hnone]
    | tfloat =>
      rw [hd] at hp
      have hnone : pyFloatParse (rawFieldValue line start colEnd) = none := by
        cases hx : pyFloatParse (rawFieldValue line start colEnd) with
        | none => rfl
        | some v => simp [parsesAs, hx] at hp
      simp [extractWithDefault, extract_field_value, hraw, hd, hnone]

/-- Witness for C2 at concrete inputs: a line shorter than `start`
yields the int default 42; the unparsable selection `"XYZ"` with a
declared Integer type yields the int default 7. -/
theorem extract_field_value_total_defaults_wit :
    (rawFieldValue "AB" 5 9 = ""
      ∧ extractWithDefault "AB" 5 9 (.vint 42) = .vint 42)
    ∧ (rawFieldValue "XYZAB" 1 3 ≠ ""
      ∧ parsesAs (dataTypeOf (.vint 7)) (rawFieldValue "XYZAB" 1 3) = false
      ∧ extractWithDefault "XYZAB" 1 3 (.vint 7) = .vint 7) :=
  ⟨⟨by decide,
    (extract_field_value_total_defaults "AB" 5 9 (.vint 42)
      (by decide)).2.1 (by decide)⟩,
   ⟨by decide, by decide,
    (extract_field_value_total_defaults "XYZAB" 1 3 (.vint 7)
      (by decide)).2.2 (by decide) (by decide)⟩⟩

/-- C3: every ShuntBank record produced by the shunt-bank block parser
has `total_shunt` equal to the sum of
`units_in_operation × unit_reactive_power` over its banks whose state is
Connected (`"L"`); other banks contribute 0. -/
theorem dbsh_total_shunt_invariant (l : String) (rest : List String)
    (res : List DbshRecord) (rem : List String)
    (h : parse_dbsh_section l rest = .ok (res, rem)) :
    ∀ r ∈ res, r.total_shunt = sumConnected r.banks :=
  dbshGo_total (rest.length + 1) l rest [] res rem (by simp) h

/-- Witness for C3: a block with a Connected bank (2 units × 5.0) and a
Disconnected bank (3 units × 99.0) yields `total_shunt = 10`; the
invariant holds on the parsed output. -/
theorem dbsh_total_shunt_invariant_wit :
    parse_dbsh_section "   10"
        [" 1    L      2   5.0", " 2    D      3  99.0", "FBAN", "99999", "XX"]
      = .ok ([⟨10, none, "C", 0, 10, 10, [⟨1, "L", 2, 5⟩, ⟨2, "D", 3, 99⟩]⟩],
             ["XX"])
    ∧ ∀ r ∈ [(⟨10, none, "C", 0, 10, 10,
               [⟨1, "L", 2, 5⟩, ⟨2, "D", 3, 99⟩]⟩ : DbshRecord)],
        r.total_shunt = sumConnected r.banks :=
  ⟨by decide,
   dbsh_total_shunt_invariant "   10"
     [" 1    L      2   5.0", " 2    D      3  99.0", "FBAN", "99999", "XX"]
     [⟨10, none, "C", 0, 10, 10, [⟨1, "L", 2, 5⟩, ⟨2, "D", 3, 99⟩]⟩] ["XX"]
     (by decide)⟩

/-- C6: a DBSH header line whose leading five columns parse numerically
to 99999 ends the shunt-bank block (the block returns the records
accumulated so far and consumes nothing further), even when the whole
stripped line is not the literal string `"99999"`. -/
theorem dbsh_numeric_sentinel_ends_block (fuel : Nat) (l : String)
    (rest : List String) (acc : List DbshRecord)
    (h1 : pyStartsWith l "(" = false)
    (h2 : pyIntParse (pySlice l 0 5) = some 99999) :
    dbshGo (fuel + 1) l rest acc = .ok (acc, rest) := by
  rw [dbshGo, skipComments_not_comment l rest h1]
  dsimp only
  by_cases hsent : pyStrip l = "99999" ∨ pyStrip l = "FIM"
  · rw [if_pos hsent]
  · rw [if_neg hsent, h2]
    simp

/-- Witness for C6: the line `"99999 ABC"` is not string-equal to the
sentinel after stripping, yet terminates the block by the numeric
check. -/
theorem dbsh_numeric_sentinel_ends_block_wit :
    ¬ (pyStrip "99999 ABC" = "99999")
    ∧ dbshGo 4 "99999 ABC" ["junk"] [] = .ok ([], ["junk"]) :=
  ⟨by decide,
   dbsh_numeric_sentinel_ends_block 3 "99999 ABC" ["junk"] []
     (by decide) (by decide)⟩

/-- C9 (amended): when the schema file is MISSING the loader degrades to
the empty fallback mapping without raising, whose field lists are empty
for every record kind, so every successfully parsed record is the empty
record; a present-but-corrupt file is NOT degraded (see the
counterexample: loading raises). -/
theorem schema_missing_degrades_to_empty :
    load_field_mappings .missing = .ok emptyMappings
    ∧ (∀ sec, fieldsFor emptyMappings sec = [])
    ∧ (∀ minLen line rcd, parse_record [] minLen line = .ok rcd → rcd = []) := by
  refine ⟨rfl, ?_, ?_⟩
  · intro sec
    by_cases h1 : sec = "DBAR"
    · subst h1; rfl
    · by_cases h2 : sec = "DLIN"
      · subst h2; rfl
      · have hb1 : (sec == "DBAR") = false := beq_eq_false_iff_ne.mpr h1
        have hb2 : (sec == "DLIN") = false := beq_eq_false_iff_ne.mpr h2
        simp [fieldsFor, emptyMappings, List.lookup, hb1, hb2]
  · intro minLen line rcd h
    unfold parse_record at h
    by_cases hl : line.length < minLen
    · rw [if_pos hl] at h
      exact Except.noConfusion h
    · rw [if_neg hl] at h
      exact (Except.ok.inj h).symm

/-- Witness for C9's amended theorem: with the empty schema, parsing a
20-character data line produces the empty record. -/
theorem schema_missing_degrades_to_empty_wit :
    parse_record [] 20 "ABCDEFGHIJKLMNOPQRSTUVWX" = .ok []
    ∧ ∀ rcd, parse_record [] 20 "ABCDEFGHIJKLMNOPQRSTUVWX" = .ok rcd →
        rcd = [] :=
  ⟨by decide,
   fun rcd h =>
     schema_missing_degrades_to_empty.2.2 20 "ABCDEFGHIJKLMNOPQRSTUVWX" rcd h⟩

/-- Counterexample to C9 as stated: a present-but-CORRUPT schema file
does not degrade to an empty schema — `json.load`'s decode error is not
caught (`_load_field_mappings` catches only `FileNotFoundError`), so
loading raises at startup. -/
theorem schema_corrupt_raises :
    load_field_mappings (.present .invalid) = .error "JSONDecodeError" := rfl

/-- C1 (code bug): on a document with Connected buses 1 and 2 and two
DLIN records over the pair 1-2 — the first Connected, the second
Disconnected — the serializer emits TWO entries: the Disconnected record
is emitted because the endpoint-connectivity check and emission body sit
outside the `state == "L"` guard and reuse the stale endpoint locals.
When the FIRST record is Disconnected those locals are unbound and the
serializer raises `NameError`. -/
theorem serializer_emits_disconnected_line :
    formatDlin
        [⟨some 1, some "L", none⟩, ⟨some 2, some "L", none⟩]
        [⟨some "L", some 1, some 2, some (267/50), none, none, none,
          none, none, none, none⟩,
         ⟨some "D", some 1, some 2, some 1, none, none, none,
          none, none, none, none⟩]
      = .ok [⟨1, 1, 2, 0, 267/5000, 0, 0, 0, 0, 0, 0, 99999⟩,
             ⟨2, 1, 2, 0, 1/100, 0, 0, 0, 0, 0, 0, 99999⟩]
    ∧ formatDlin
        [⟨some 1, some "L", none⟩, ⟨some 2, some "L", none⟩]
        [⟨some "D", some 1, some 2, some 1, none, none, none,
          none, none, none, none⟩]
      = .error "NameError" :=
  ⟨by decide, by decide⟩

/-- C4 (amended): one Pass A step adds the bank's `total_shunt` to the
accumulated shunt of the first Bus whose NONZERO number equals the bank's
`terminal_bus` (the truthy lookup never matches a bus numbered 0),
leaving every other bus and the warning list unchanged; when no such bus
exists, the buses are unchanged and a warning naming the bank's
`from_bus` and 1-based index is appended.  `addShunt` raises the
accumulated value by exactly the added amount and preserves the bus
number, and two banks targeting the same bus accumulate additively. -/
theorem pass_a_adds_total_shunt_to_bus (s : Nat) (r : DbshRecord)
    (buses : List BusRec) (ws : List IntWarning) :
    ((∃ b ∈ buses, b.number = some r.terminal_bus ∧ r.terminal_bus ≠ 0) →
      ∃ k b, buses.get? k = some b ∧ b.number = some r.terminal_bus ∧
        (dbshStep s r buses ws).1.get? k = some (addShunt r.total_shunt b) ∧
        (∀ j, j ≠ k → (dbshStep s r buses ws).1.get? j = buses.get? j) ∧
        (dbshStep s r buses ws).2 = ws)
    ∧ ((¬ ∃ b ∈ buses, b.number = some r.terminal_bus ∧ r.terminal_bus ≠ 0) →
        dbshStep s r buses ws = (buses, ws ++ [.bshBusError r.from_bus s]))
    ∧ (∀ (x : ℚ) (b2 : BusRec),
        capVal (addShunt x b2).capacitor_reactor
            = capVal b2.capacitor_reactor + x
        ∧ (addShunt x b2).number = b2.number)
    ∧ (∀ r2 : DbshRecord, r2.terminal_bus = r.terminal_bus →
        (∃ b ∈ buses, b.number = some r.terminal_bus ∧ r.terminal_bus ≠ 0) →
        ∃ k b, buses.get? k = some b ∧ b.number = some r.terminal_bus ∧
          (integrateDbshFrom s [r, r2] (buses, ws)).1.get? k
            = some (addShunt r2.total_shunt (addShunt r.total_shunt b))) := by
  refine ⟨?_, ?_, ?_, ?_⟩
  · intro hex
    obtain ⟨k, b, hfk, hbg, hbn⟩ := findBusIdx_spec_pos _ _ hex
    refine ⟨k, b, hbg, hbn, ?_, ?_, ?_⟩
    · simp only [dbshStep, hfk]
      rw [updateAt_get?_self, hbg]
      rfl
    · intro j hj
      simp only [dbshStep, hfk]
      exact updateAt_get?_ne _ _ _ _ hj
    · simp [dbshStep, hfk]
  · intro hnex
    have hn := findBusIdx_spec_neg _ _ hnex
    simp [dbshStep, hn]
  · intro x b2
    exact ⟨rfl, rfl⟩
  · intro r2 h2 hex
    obtain ⟨k, b, hfk, hbg, hbn⟩ := findBusIdx_spec_pos _ _ hex
    have hfk2 : findBusIdx r2.terminal_bus
        (updateAt buses k (addShunt r.total_shunt)) = some k := by
      rw [h2, findBusIdx_updateAt]
      exact hfk
    refine ⟨k, b, hbg, hbn, ?_⟩
    simp only [integrateDbshFrom, dbshStep, hfk, hfk2]
    rw [updateAt_get?_self, updateAt_get?_self, hbg]
    rfl

/-- Witness for C4: a single bank with `terminal_bus = 7` and
`total_shunt = 3` applied to a document with one bus numbered 7. -/
theorem pass_a_adds_total_shunt_to_bus_wit :
    ∃ k b, [(⟨some 7, some "L", some (.vfloat 1)⟩ : BusRec)].get? k = some b
      ∧ b.number = some (7 : Int)
      ∧ (dbshStep 1 ⟨7, none, "C", 0, 7, 3, []⟩
          [⟨some 7, some "L", some (.vfloat 1)⟩] []).1.get? k
            = some (addShunt 3 b)
      ∧ (∀ j, j ≠ k →
          (dbshStep 1 ⟨7, none, "C", 0, 7, 3, []⟩
            [⟨some 7, some "L", some (.vfloat 1)⟩] []).1.get? j
              = [(⟨some 7, some "L", some (.vfloat 1)⟩ : BusRec)].get? j)
      ∧ (dbshStep 1 ⟨7, none, "C", 0, 7, 3, []⟩
          [⟨some 7, some "L", some (.vfloat 1)⟩] []).2 = [] :=
  (pass_a_adds_total_shunt_to_bus 1 ⟨7, none, "C", 0, 7, 3, []⟩
    [⟨some 7, some "L", some (.vfloat 1)⟩] []).1 (by decide)

/-- Counterexample to C4 as stated: the document contains a Bus whose
number equals the bank's `terminal_bus` (namely 0), yet Pass A warns and
skips the bank and the bus is left unchanged — the lookup guard
`if Num_k and ...` treats a bus number of 0 as falsy. -/
theorem pass_a_zero_bus_counterexample :
    (∃ b ∈ [(⟨some 0, none, some (.vfloat 5)⟩ : BusRec)],
       b.number = some ((⟨0, none, "C", 0, 0, 3, []⟩ : DbshRecord).terminal_bus))
    ∧ integrate_dbsh [⟨0, none, "C", 0, 0, 3, []⟩]
        [⟨some 0, none, some (.vfloat 5)⟩]
      = ([⟨some 0, none, some (.vfloat 5)⟩], [.bshBusError 0 1]) :=
  ⟨by decide, by decide⟩

/-- C5 (amended): Pass B looks up the FIRST Line whose unordered endpoint
pair equals the device's `{from_bus, to_bus}` with both stored endpoints
nonzero (the match guard treats 0/absent endpoints as no match — see the
characterization in the first conjunct).  With no such line the device is
warned and skipped; with a found line that is not Connected nothing
happens; with a Connected line the FROM side and then the TO side are
applied independently, each side adding its shunt to the first bus with
matching nonzero number exactly when its own state is Connected, and
warning (without aborting the other side) when its target bus is
missing. -/
theorem pass_b_applies_shunts_via_line (dlin : List DlinRec) (s : Nat)
    (d : DshlRecord) (buses : List BusRec) (ws : List IntWarning) :
    (∀ rl : DlinRec, lineMatches d.from_bus d.to_bus rl = true ↔
      (((rl.from_bus = some d.from_bus ∧ rl.to_bus = some d.to_bus) ∨
        (rl.to_bus = some d.from_bus ∧ rl.from_bus = some d.to_bus))
       ∧ d.from_bus ≠ 0 ∧ d.to_bus ≠ 0))
    ∧ ((∀ rl ∈ dlin, lineMatches d.from_bus d.to_bus rl = false) →
        dshlStep dlin s d buses ws
          = (buses, ws ++ [.shlLineNotFound d.from_bus d.to_bus]))
    ∧ (∀ r0, dlin.find? (lineMatches d.from_bus d.to_bus) = some r0 →
        r0.state.getD "L" ≠ "L" → dshlStep dlin s d buses ws = (buses, ws))
    ∧ (∀ r0, dlin.find? (lineMatches d.from_bus d.to_bus) = some r0 →
        r0.state.getD "L" = "L" →
        dshlStep dlin s d buses ws =
          (fun bw => applySide d.to_bus d.state_to d.shunt_to
              (.shlBusToError d.to_bus s) bw.1 bw.2)
            (applySide d.from_bus d.state_from d.shunt_from
              (.shlBusFromError d.from_bus s) buses ws))
    ∧ (∀ (target : Int) (stt : String) (sh : ℚ) (w : IntWarning)
         (bs : List BusRec) (ws2 : List IntWarning),
        ((∃ b ∈ bs, b.number = some target ∧ target ≠ 0) →
          ∃ k b, bs.get? k = some b ∧ b.number = some target ∧
            (applySide target stt sh w bs ws2).2 = ws2 ∧
            (stt = "L" →
              (applySide target stt sh w bs ws2).1.get? k
                  = some (addShunt sh b) ∧
              ∀ j, j ≠ k →
                (applySide target stt sh w bs ws2).1.get? j = bs.get? j) ∧
            (stt ≠ "L" → (applySide target stt sh w bs ws2).1 = bs))
        ∧ ((¬ ∃ b ∈ bs, b.number = some target ∧ target ≠ 0) →
            applySide target stt sh w bs ws2 = (bs, ws2 ++ [w]))) := by
  refine ⟨fun rl => lineMatches_iff d.from_bus d.to_bus rl, ?_, ?_, ?_, ?_⟩
  · intro hall
    have hn : dlin.find? (lineMatches d.from_bus d.to_bus) = none := by
      rw [List.find?_eq_none]
      intro x hx
      rw [hall x hx]
      exact Bool.false_ne_true
    simp [dshlStep, hn]
  · intro r0 hf hst
    simp only [dshlStep, hf]
    rw [if_neg hst]
  · intro r0 hf hst
    simp only [dshlStep, hf]
    rw [if_pos hst]
    rfl
  · intro target stt sh w bs ws2
    constructor
    · intro hex
      obtain ⟨k, b, hfk, hbg, hbn⟩ := findBusIdx_spec_pos _ _ hex
      refine ⟨k, b, hbg, hbn, ?_, ?_, ?_⟩
      · simp [applySide, hfk]
      · intro hst
        constructor
        · simp only [applySide, hfk]
          rw [if_pos hst, updateAt_get?_self, hbg]
          rfl
        · intro j hj
          simp only [applySide, hfk]
          rw [if_pos hst]
          exact updateAt_get?_ne _ _ _ _ hj
      · intro hst
        simp only [applySide, hfk]
        rw [if_neg hst]
    · intro hnex
      have hn := findBusIdx_spec_neg _ _ hnex
      simp [applySide, hn]

/-- Witness for C5: a device whose endpoint pair matches no line is
warned and skipped. -/
theorem pass_b_applies_shunts_via_line_wit :
    dshlStep [] 1 ⟨1, "A", 2, 1, 0, 7, "L", "L"⟩ [] []
      = ([], [.shlLineNotFound 1 2]) :=
  (pass_b_applies_shunts_via_line [] 1 ⟨1, "A", 2, 1, 0, 7, "L", "L"⟩ [] []).2.1
    (by simp)

/-- Counterexample to C5 as stated: the document contains a Connected
Line whose unordered endpoint pair equals the device's `{0, 2}`, and a
Bus numbered 2 with `state_to` Connected and `shunt_to = 7`; the claim
says `shunt_to` is added to bus 2, but Pass B reports the line as
nonexistent and changes nothing, because the endpoint-matching guard
treats the stored endpoint 0 as falsy. -/
theorem pass_b_zero_endpoint_counterexample :
    ((⟨some "L", some 0, some 2, none, none, none, none, none, none, none,
       none⟩ : DlinRec).from_bus = some (0 : Int)
     ∧ (⟨some "L", some 0, some 2, none, none, none, none, none, none, none,
        none⟩ : DlinRec).to_bus = some (2 : Int)
     ∧ (⟨some "L", some 0, some 2, none, none, none, none, none, none, none,
        none⟩ : DlinRec).state = some "L")
    ∧ integrate_dshl [⟨0, "A", 2, 1, 0, 7, "L", "L"⟩]
        [⟨some "L", some 0, some 2, none, none, none, none, none, none, none,
          none⟩]
        [⟨some 2, none, some (.vfloat 0)⟩]
      = ([⟨some 2, none, some (.vfloat 0)⟩], [.shlLineNotFound 0 2]) :=
  ⟨⟨rfl, rfl, rfl⟩, by decide⟩

/-- C10 (amended): both integration passes guard their lookups with
Python truthiness, so the value 0 never matches: a ShuntBank with
`terminal_bus = 0` is warned (naming the bank's `from_bus` and index) and
skipped with every bus unchanged, and a ShuntDevice with an endpoint
equal to 0 already fails LINE matching (the guard is truthy there too)
and is warned as 'line doesn't exist' — not 'bus not found' — and
skipped with every bus unchanged; in both cases the accumulated shunt of
a bus numbered 0 is never increased. -/
theorem truthy_guard_skips_zero_bus (s : Nat) (r : DbshRecord)
    (buses : List BusRec) (ws : List IntWarning) (d : DshlRecord)
    (dlin : List DlinRec) :
    (r.terminal_bus = 0 →
      dbshStep s r buses ws = (buses, ws ++ [.bshBusError r.from_bus s]))
    ∧ ((d.from_bus = 0 ∨ d.to_bus = 0) →
      dshlStep dlin s d buses ws
        = (buses, ws ++ [.shlLineNotFound d.from_bus d.to_bus])) := by
  constructor
  · intro h0
    simp [dbshStep, h0, findBusIdx_zero]
  · intro h0
    have hn : dlin.find? (lineMatches d.from_bus d.to_bus) = none := by
      rw [List.find?_eq_none]
      intro x hx
      rw [lineMatches_zero d.from_bus d.to_bus x h0]
      exact Bool.false_ne_true
    simp [dshlStep, hn]

/-- Witness for C10: a bank with `terminal_bus = 0` over a document
containing a bus numbered 0, and a device with FROM endpoint 0 whose pair
matches a stored line `{0, 5}`. -/
theorem truthy_guard_skips_zero_bus_wit :
    dbshStep 1 ⟨5, none, "C", 0, 0, 3, []⟩ [⟨some 0, none, none⟩] []
      = ([⟨some 0, none, none⟩], [.bshBusError 5 1])
    ∧ dshlStep
        [⟨some "L", some 0, some 5, none, none, none, none, none, none, none,
          none⟩] 1 ⟨0, "A", 5, 1, 3, 0, "L", "L"⟩ [⟨some 0, none, none⟩] []
      = ([⟨some 0, none, none⟩], [.shlLineNotFound 0 5]) :=
  ⟨(truthy_guard_skips_zero_bus 1 ⟨5, none, "C", 0, 0, 3, []⟩
      [⟨some 0, none, none⟩] [] ⟨0, "A", 5, 1, 3, 0, "L", "L"⟩ []).1 rfl,
   (truthy_guard_skips_zero_bus 1 ⟨5, none, "C", 0, 0, 3, []⟩
      [⟨some 0, none, none⟩] [] ⟨0, "A", 5, 1, 3, 0, "L", "L"⟩
      [⟨some "L", some 0, some 5, none, none, none, none, none, none, none,
        none⟩]).2 (Or.inl rfl)⟩

/-- Counterexample to C10 as stated: for a ShuntDevice with endpoint 0
(over a document holding bus 0 and the Connected line `{0, 5}`), the
emitted warning is the line-doesn't-exist warning from line matching, not
the 'bus not found' warning the claim describes — the bus lookup is never
reached. -/
theorem truthy_guard_warning_counterexample :
    integrate_dshl [⟨0, "A", 5, 1, 3, 0, "L", "L"⟩]
        [⟨some "L", some 0, some 5, none, none, none, none, none, none, none,
          none⟩]
        [⟨some 0, none, some (.vfloat 2)⟩]
      = ([⟨some 0, none, some (.vfloat 2)⟩], [.shlLineNotFound 0 5])
    ∧ (IntWarning.shlBusFromError 0 1) ∉ [IntWarning.shlLineNotFound 0 5] :=
  ⟨by decide, by decide⟩

/-- C7: when the current section's record parser raises on a data line
(a line that is not a sentinel, a header, blank or a comment), the
scanner catches the exception, appends a warning carrying the line number
and the section, and continues scanning the remaining lines with the
state otherwise unchanged — so no single malformed line aborts the parse
and records from the other lines are still produced. -/
theorem scanner_catches_record_errors (sch : Mappings) (fuel : Nat)
    (st : ScanState) (n : Nat) (line : String) (rest : List String)
    (sec : String)
    (hcur : st.current = some sec)
    (hfail : sectionParserFails sch sec line = true)
    (h1 : pyStrip line ≠ "FIM") (h2 : pyStrip line ≠ "99999")
    (h3 : pyStrip line ∉ allSections)
    (h4 : pyStrip line ≠ "")
    (h5 : pyStartsWith (pyStrip line) "(" = false) :
    ∃ e, scanGo sch (fuel + 1) st n (line :: rest)
        = scanGo sch fuel (pushWarn st n (some sec) e) (n + 1) rest := by
  have h45 : ¬ (pyStrip line = "" ∨ pyStartsWith (pyStrip line) "(" = true) := by
    rintro (hc | hc)
    · exact h4 hc
    · rw [h5] at hc
      exact Bool.noConfusion hc
  rcases sectionParserFails_elim sch sec line hfail with
    ⟨hsec, e, hp⟩ | ⟨hsec, e, hp⟩ | ⟨hsec, e, hp⟩ | ⟨hsec, e, hp⟩ |
    ⟨hsec, e, hp⟩ | ⟨hsec, e, hp⟩
  · subst hsec
    refine ⟨e, ?_⟩
    rw [scanGo, if_neg h1, if_neg h2, if_neg h3, if_neg h45, hcur,
        if_neg (by decide), if_pos rfl, hp]
  · subst hsec
    refine ⟨e, ?_⟩
    rw [scanGo, if_neg h1, if_neg h2, if_neg h3, if_neg h45, hcur,
        if_neg (by decide), if_neg (by decide), if_pos rfl, hp]
  · subst hsec
    refine ⟨e, ?_⟩
    rw [scanGo, if_neg h1, if_neg h2, if_neg h3, if_neg h45, hcur,
        if_neg (by decide), if_neg (by decide), if_neg (by decide),
        if_pos rfl, hp]
  · subst hsec
    refine ⟨e, ?_⟩
    rw [scanGo, if_neg h1, if_neg h2, if_neg h3, if_neg h45, hcur,
        if_neg (by decide), if_neg (by decide), if_neg (by decide),
        if_neg (by decide), if_pos rfl, hp]
  · subst hsec
    refine ⟨e, ?_⟩
    rw [scanGo, if_neg h1, if_neg h2, if_neg h3, if_neg h45, hcur,
        if_neg (by decide), if_neg (by decide), if_neg (by decide),
        if_neg (by decide), if_neg (by decide), if_pos rfl, hp]
  · subst hsec
    refine ⟨e, ?_⟩
    rw [scanGo, if_neg h1, if_neg h2, if_neg h3, if_neg h45, hcur,
        if_neg (by decide), if_neg (by decide), if_neg (by decide),
        if_neg (by decide), if_neg (by decide), if_neg (by decide),
        if_neg (by decide), if_pos rfl, hp]

/-- Witness for C7: inside a DBAR section, the 3-character line `"bad"`
makes the record parser raise (line shorter than 20); the scanner logs
the warning for line 3 and continues, and the full scan of a document
with this bad line still returns both good DBAR records plus exactly
that warning. -/
theorem scanner_catches_record_errors_wit :
    (∃ e, scanGo [("DBAR", [⟨"number", 1, 5, .vint 0⟩])] 2
        ⟨[], [], [], [], [], [], [], [], [], some "DBAR", false⟩ 3
        ("bad" :: ["99999"])
      = scanGo [("DBAR", [⟨"number", 1, 5, .vint 0⟩])] 1
          (pushWarn ⟨[], [], [], [], [], [], [], [], [], some "DBAR", false⟩
            3 (some "DBAR") e) 4 ["99999"])
    ∧ (parse_file_scan [("DBAR", [⟨"number", 1, 5, .vint 0⟩])]
        ["DBAR", "    1               OK", "bad", "   12               OK",
         "99999"]).dbar
      = [[("number", .vint 1)], [("number", .vint 12)]]
    ∧ (parse_file_scan [("DBAR", [⟨"number", 1, 5, .vint 0⟩])]
        ["DBAR", "    1               OK", "bad", "   12               OK",
         "99999"]).warnings
      = [(3, some "DBAR", "line too short")] :=
  ⟨scanner_catches_record_errors [("DBAR", [⟨"number", 1, 5, .vint 0⟩])] 1
      ⟨[], [], [], [], [], [], [], [], [], some "DBAR", false⟩ 3 "bad"
      ["99999"] "DBAR" rfl (by decide) (by decide) (by decide) (by decide)
      (by decide) (by decide),
   by decide, by decide⟩

/-- C8: every emitted DLIN entry carries the stored percent-valued
resistance, reactance and susceptance divided by 100, and its
tap/transformer-flag pair is (0.0, 0) when the record's tap field is
absent or blank, and (tap value, 1) when a numeric tap value is
present. -/
theorem serializer_divides_by_100_and_flags_tap (dbar : List BusRec)
    (dlin : List DlinRec) (es : List DlinEntry)
    (h : formatDlin dbar dlin = .ok es) :
    ∀ e ∈ es, ∃ rcd ∈ dlin,
      e.r = (rcd.resistance.getD 0) / 100
      ∧ e.x = (rcd.reactance.getD 0) / 100
      ∧ e.bshl = (rcd.susceptance.getD 0) / 100
      ∧ (tapBlank rcd.tap → e.tap = 0 ∧ e.tr = 0)
      ∧ (∀ q, tapNumVal rcd.tap = some q → e.tap = q ∧ e.tr = 1) := by
  intro e he
  obtain ⟨rcd, hrcd, i, fb, tb, hmk⟩ :=
    formatDlinGo_mem (connectedBuses dbar) dlin none 1 es h e he
  exact ⟨rcd, hrcd, mkEntry_fields i fb tb rcd e hmk⟩

/-- Witness for C8: a document with two Connected lines between
Connected buses 1 and 2 — resistance 5 (percent) emitted as 1/20 = 0.05
per-unit, reactance 10 emitted as 0.1; the first record's absent tap
yields (0.0, 0), the second's tap of 1.05 yields (1.05, 1). -/
theorem serializer_divides_by_100_and_flags_tap_wit :
    formatDlin [⟨some 1, some "L", none⟩, ⟨some 2, some "L", none⟩]
        [⟨some "L", some 1, some 2, some 5, none, none, none, none, none,
          none, none⟩,
         ⟨some "L", some 1, some 2, some 5, some 10, none,
          some (.vfloat (21/20)), none, none, none, some 200⟩]
      = .ok [⟨1, 1, 2, 0, 1/20, 0, 0, 0, 0, 0, 0, 99999⟩,
             ⟨2, 1, 2, 1, 1/20, 1/10, 0, 21/20, 0, 0, 0, 200⟩]
    ∧ ∀ e ∈ [(⟨1, 1, 2, 0, 1/20, 0, 0, 0, 0, 0, 0, 99999⟩ : DlinEntry),
             ⟨2, 1, 2, 1, 1/20, 1/10, 0, 21/20, 0, 0, 0, 200⟩],
        ∃ rcd ∈ [(⟨some "L", some 1, some 2, some 5, none, none, none, none,
                   none, none, none⟩ : DlinRec),
                 ⟨some "L", some 1, some 2, some 5, some 10, none,
                  some (.vfloat (21/20)), none, none, none, some 200⟩],
          e.r = (rcd.resistance.getD 0) / 100
          ∧ e.x = (rcd.reactance.getD 0) / 100
          ∧ e.bshl = (rcd.susceptance.getD 0) / 100
          ∧ (tapBlank rcd.tap → e.tap = 0 ∧ e.tr = 0)
          ∧ (∀ q, tapNumVal rcd.tap = some q → e.tap = q ∧ e.tr = 1) :=
  ⟨by decide,
   serializer_divides_by_100_and_flags_tap
     [⟨some 1, some "L", none⟩, ⟨some 2, some "L", none⟩]
     [⟨some "L", some 1, some 2, some 5, none, none, none, none, none,
       none, none⟩,
      ⟨some "L", some 1, some 2, some 5, some 10, none,
       some (.vfloat (21/20)), none, none, none, some 200⟩]
     [⟨1, 1, 2, 0, 1/20, 0, 0, 0, 0, 0, 0, 99999⟩,
      ⟨2, 1, 2, 1, 1/20, 1/10, 0, 21/20, 0, 0, 0, 200⟩] (by decide)⟩

end Pyx
